import Mathlib

/-!
# Verification of the topo2 topoguide generator

A shallow embedding, in Lean 4, of the two Python source files of the
repository (`app.py`, the Streamlit form layer, and `pdf_generator.py`,
the PDF page composer), together with proofs and refutations of the
frozen specification claims.

Modelling conventions:

* A Python `str` is modelled as `PyStr := List Char` (`str.split`,
  `str.strip`, slicing and `len` become executable Lean functions with the
  exact CPython semantics for the operations the code uses).
* Python float arithmetic is modelled exactly over `ℚ`; the constants the
  code uses (`0.5`, `mm = 72 / 25.4`, …) are written as exact rationals.
  No claim depends on float rounding.
* The stateful ReportLab canvas is modelled as a trace of drawing
  directives (`Op`); the fill/stroke/font state that the code sets right
  before each primitive call is recorded as explicit trace entries.
  A computation that can raise a Python exception yields a
  `DrawResult := List Op × Option PyErr`: the directives issued before the
  exception, and the exception if one escaped.
* The external libraries the code calls (PIL image decoding, the `qrcode`
  encoder) are inputs of the model: an image reference carries its decode
  outcome, and the QR encoder is passed in as a function argument.
-/

/-- A Python `str`, modelled as its list of characters. -/
abbrev PyStr := List Char

/-- Shorthand turning a Lean string literal into a `PyStr`. -/
def ps (s : String) : PyStr := s.toList

/-- The characters stripped by Python `str.strip()` (ASCII whitespace;
the code never feeds other Unicode whitespace to `strip`). -/
def pyIsSpace (c : Char) : Bool :=
  c = ' ' || c = '\t' || c = '\n' || c = '\r' || c = '\x0b' || c = '\x0c'

/-- Python `s.strip()`: remove leading and trailing whitespace. -/
def pyStrip (s : PyStr) : PyStr :=
  ((s.dropWhile pyIsSpace).reverse.dropWhile pyIsSpace).reverse

/-- Python `s.split(sep)` for a single-character separator: split at every
occurrence of `sep`, keeping empty fragments (`''.split(sep) = ['']`). -/
def splitChar (sep : Char) : PyStr → List PyStr
  | [] => [[]]
  | c :: rest =>
    match splitChar sep rest with
    | [] => [[]]
    | w :: ws => if c = sep then [] :: w :: ws else (c :: w) :: ws

/-- Python `' '.join(lines)`. -/
def joinSpace : List PyStr → PyStr
  | [] => []
  | [l] => l
  | l :: l' :: L => l ++ ' ' :: joinSpace (l' :: L)

/-! ## The text wrapper (`TopoGuidePDFGenerator._wrap_text`)

```python
def _wrap_text(self, text, max_width, font_size, font_name):
    lines = []
    words = text.split(' ')
    current_line = ""
    char_width = font_size * 0.5
    for word in words:
        test_line = current_line + (" " if current_line else "") + word
        if len(test_line) * char_width <= max_width:
            current_line = test_line
        else:
            if current_line:
                lines.append(current_line)
            current_line = word
    if current_line:
        lines.append(current_line)
    return lines
```
-/

/-- The width test of `_wrap_text`: `len(s) * (font_size * 0.5) <= max_width`. -/
def wrapFits (max_width font_size : ℚ) (s : PyStr) : Prop :=
  (s.length : ℚ) * (font_size * (1 / 2)) ≤ max_width

instance (max_width font_size : ℚ) (s : PyStr) :
    Decidable (wrapFits max_width font_size s) := by
  unfold wrapFits; infer_instance

/-- One iteration of the `for word in words` loop of `_wrap_text`; the state
is the pair `(lines, current_line)`. -/
def wrapStep (max_width font_size : ℚ) (st : List PyStr × PyStr) (word : PyStr) :
    List PyStr × PyStr :=
  let test_line := st.2 ++ (if st.2 ≠ [] then [' '] else []) ++ word
  if (test_line.length : ℚ) * (font_size * (1 / 2)) ≤ max_width then
    (st.1, test_line)
  else
    ((if st.2 ≠ [] then st.1 ++ [st.2] else st.1), word)

/-- `TopoGuidePDFGenerator._wrap_text` (the `font_name` argument is unused by
the source body and omitted). -/
def wrap_text (text : PyStr) (max_width font_size : ℚ) : List PyStr :=
  let words := splitChar ' ' text
  let r := words.foldl (wrapStep max_width font_size) ([], [])
  if r.2 ≠ [] then r.1 ++ [r.2] else r.1

/-! ## The landmark parser (`app.parse_landmarks`)

```python
def parse_landmarks(landmarks_text):
    landmarks = []
    if landmarks_text:
        lines = landmarks_text.strip().split('\n')
        for i, line in enumerate(lines):
            line = line.strip()
            if line:
                x_pos = 20 + (i * 25) if i < 3 else 50
                landmarks.append({'text': line, 'x': x_pos, 'y': 35, 'type': 'landmark'})
    return landmarks
```
(`A + B if C else D` parses in Python as `(A + B) if C else D`.) -/

structure Landmark where
  text : PyStr
  x : Int
  y : Int
  deriving Repr, DecidableEq

/-- `app.parse_landmarks`. -/
def parse_landmarks (landmarks_text : PyStr) : List Landmark :=
  if landmarks_text ≠ [] then
    (splitChar '\n' (pyStrip landmarks_text)).enum.filterMap fun p =>
      let line := pyStrip p.2
      if line ≠ [] then
        some { text := line, x := if p.1 < 3 then 20 + (p.1 : Int) * 25 else 50, y := 35 }
      else none
  else []

/-- The horizontal-offset policy the spec describes, as a function of the raw
line index. -/
def landmarkOffset (i : Nat) : Int :=
  if i < 3 then 20 + (i : Int) * 25 else 50

/-! ## Lemmas about `splitChar` and `joinSpace` -/

theorem splitChar_ne_nil (sep : Char) (s : PyStr) : splitChar sep s ≠ [] := by
  induction s with
  | nil => simp [splitChar]
  | cons c rest ih =>
    cases h : splitChar sep rest with
    | nil => exact absurd h ih
    | cons w ws =>
      simp only [splitChar, h]
      split <;> simp

theorem splitChar_cons (sep c : Char) (rest : PyStr) :
    splitChar sep (c :: rest) =
      if c = sep then [] :: splitChar sep rest
      else (c :: (splitChar sep rest).headI) :: (splitChar sep rest).tail := by
  cases h : splitChar sep rest with
  | nil => exact absurd h (splitChar_ne_nil sep rest)
  | cons w ws =>
    simp only [splitChar, h]
    split <;> simp

theorem mem_splitChar_not_sep {sep : Char} {s : PyStr} {w : PyStr}
    (hw : w ∈ splitChar sep s) : sep ∉ w := by
  induction s generalizing w with
  | nil => simp [splitChar] at hw; simp [hw]
  | cons c rest ih =>
    cases h : splitChar sep rest with
    | nil => exact absurd h (splitChar_ne_nil sep rest)
    | cons v vs =>
      simp only [splitChar, h] at hw
      by_cases hc : c = sep
      · subst hc
        simp at hw
        rcases hw with hw | hw | hw
        · simp [hw]
        · exact ih (hw ▸ (h ▸ List.mem_cons_self v vs))
        · exact ih (h ▸ List.mem_cons_of_mem v hw)
      · simp [hc] at hw
        rcases hw with hw | hw
        · subst hw
          intro hmem
          rcases List.mem_cons.1 hmem with h1 | h1
          · exact hc h1.symm
          · exact ih (h ▸ List.mem_cons_self v vs) h1
        · exact ih (h ▸ List.mem_cons_of_mem v hw)

theorem splitChar_of_not_mem {sep : Char} {s : PyStr} (h : sep ∉ s) :
    splitChar sep s = [s] := by
  induction s with
  | nil => rfl
  | cons c rest ih =>
    have hc : ¬ c = sep := fun hh => h (hh ▸ List.mem_cons_self c rest)
    have hr : sep ∉ rest := fun hh => h (List.mem_cons_of_mem c hh)
    rw [splitChar_cons, if_neg hc, ih hr]
    simp

theorem splitChar_append_sep (sep : Char) (x y : PyStr) :
    splitChar sep (x ++ sep :: y) = splitChar sep x ++ splitChar sep y := by
  induction x with
  | nil =>
    cases h : splitChar sep y with
    | nil => exact absurd h (splitChar_ne_nil sep y)
    | cons w ws => simp [splitChar, h]
  | cons c x' ih =>
    rw [List.cons_append, splitChar_cons, splitChar_cons, ih]
    by_cases hc : c = sep
    · simp [hc]
    · cases h : splitChar sep x' with
      | nil => exact absurd h (splitChar_ne_nil sep x')
      | cons w ws => simp [hc, h]

theorem joinSpace_cons_cons (l l' : PyStr) (L : List PyStr) :
    joinSpace (l :: l' :: L) = l ++ ' ' :: joinSpace (l' :: L) := rfl

theorem splitChar_joinSpace (L : List PyStr) (hL : L ≠ []) :
    splitChar ' ' (joinSpace L) = L.flatMap (splitChar ' ') := by
  induction L with
  | nil => exact absurd rfl hL
  | cons l L ih =>
    rcases L with _ | ⟨l', L'⟩
    · simp [joinSpace]
    · rw [joinSpace_cons_cons, splitChar_append_sep, ih (by simp)]
      simp

section WrapLemmas

variable (mw fs : ℚ)

theorem wrapStep_eq (st : List PyStr × PyStr) (word : PyStr) :
    wrapStep mw fs st word =
      if wrapFits mw fs (st.2 ++ (if st.2 ≠ [] then [' '] else []) ++ word) then
        (st.1, st.2 ++ (if st.2 ≠ [] then [' '] else []) ++ word)
      else ((if st.2 ≠ [] then st.1 ++ [st.2] else st.1), word) := by
  simp only [wrapStep, wrapFits]

theorem wrapStep_nil_cur (A : List PyStr) (w : PyStr) :
    wrapStep mw fs (A, []) w = (A, w) := by
  rw [wrapStep_eq]
  split <;> simp_all

theorem wrapStep_pos (A : List PyStr) (c w : PyStr) (hc : c ≠ [])
    (h : wrapFits mw fs (c ++ ' ' :: w)) :
    wrapStep mw fs (A, c) w = (A, c ++ ' ' :: w) := by
  rw [wrapStep_eq]
  simp only [hc, ne_eq, not_false_eq_true, if_true, List.append_assoc,
    List.singleton_append]
  exact if_pos h

theorem wrapStep_neg (A : List PyStr) (c w : PyStr) (hc : c ≠ [])
    (h : ¬ wrapFits mw fs (c ++ ' ' :: w)) :
    wrapStep mw fs (A, c) w = (A ++ [c], w) := by
  rw [wrapStep_eq]
  simp only [hc, ne_eq, not_false_eq_true, if_true, List.append_assoc,
    List.singleton_append]
  exact if_neg h

theorem wrap_foldl_frame (ws : List PyStr) :
    ∀ (A : List PyStr) (c : PyStr),
      ws.foldl (wrapStep mw fs) (A, c) =
        (A ++ (ws.foldl (wrapStep mw fs) ([], c)).1, (ws.foldl (wrapStep mw fs) ([], c)).2) := by
  induction ws with
  | nil => intro A c; simp
  | cons w ws ih =>
    intro A c
    have hstep : wrapStep mw fs (A, c) w =
        (A ++ (wrapStep mw fs ([], c) w).1, (wrapStep mw fs ([], c) w).2) := by
      rw [wrapStep_eq, wrapStep_eq]
      split <;> simp <;> split <;> simp
    rw [List.foldl_cons, List.foldl_cons, hstep]
    rcases h : wrapStep mw fs ([], c) w with ⟨B, c'⟩
    rw [ih (A ++ B) c', ih B c']
    simp

theorem wrap_text_nil : wrap_text [] mw fs = [] := by
  have h : splitChar ' ' ([] : PyStr) = [[]] := rfl
  simp only [wrap_text, h, List.foldl_cons, List.foldl_nil, wrapStep_nil_cur]
  simp

end WrapLemmas

section WrapProofs

variable (mw fs : ℚ)

theorem wrapFits_mono (hfs : 0 ≤ fs) {s t : PyStr} (hlen : s.length ≤ t.length)
    (h : wrapFits mw fs t) : wrapFits mw fs s := by
  unfold wrapFits at h ⊢
  calc (s.length : ℚ) * (fs * (1 / 2))
      ≤ (t.length : ℚ) * (fs * (1 / 2)) := by
        apply mul_le_mul_of_nonneg_right
        · exact_mod_cast hlen
        · positivity
    _ ≤ mw := h

/-- Re-running the greedy loop on the words of `cur` from the initial state
rebuilds exactly the state `([], cur)`. -/
def GreedyOne (cur : PyStr) : Prop :=
  (splitChar ' ' cur).foldl (wrapStep mw fs) ([], []) = ([], cur)

/-- The break recorded between a flushed line and the line after it: the
flushed line extended by a space and the first word of the next line does not
fit. -/
def breakOk (l l' : PyStr) : Prop :=
  ¬ wrapFits mw fs (l ++ ' ' :: (splitChar ' ' l').headI)

theorem greedyOne_nil : GreedyOne mw fs [] := by
  have h : splitChar ' ' ([] : PyStr) = [[]] := rfl
  unfold GreedyOne
  rw [h, List.foldl_cons, List.foldl_nil, wrapStep_nil_cur]

theorem greedyOne_word {w : PyStr} (hw : ' ' ∉ w) : GreedyOne mw fs w := by
  unfold GreedyOne
  rw [splitChar_of_not_mem hw, List.foldl_cons, List.foldl_nil, wrapStep_nil_cur]

/-- The loop invariant used for both wrapping claims. -/
structure WrapInv (st : List PyStr × PyStr) : Prop where
  lines_ok : ∀ l ∈ st.1, l ≠ [] ∧ GreedyOne mw fs l
  chain : List.Chain' (breakOk mw fs) st.1
  cur_ok : GreedyOne mw fs st.2
  last_ok : ∀ llast, st.1.getLast? = some llast →
      (st.2 = [] ∧ ¬ wrapFits mw fs (llast ++ [' '])) ∨
      (st.2 ≠ [] ∧ breakOk mw fs llast st.2)

theorem wrapInv_init : WrapInv mw fs ([], []) := by
  refine ⟨by simp, by simp, greedyOne_nil mw fs, by simp⟩

theorem wrapInv_step (hfs : 0 ≤ fs) {st : List PyStr × PyStr} {w : PyStr}
    (hw : ' ' ∉ w) (hinv : WrapInv mw fs st) :
    WrapInv mw fs (wrapStep mw fs st w) := by
  obtain ⟨lines, cur⟩ := st
  by_cases hcur : cur = []
  · subst hcur
    rw [wrapStep_nil_cur]
    refine ⟨hinv.lines_ok, hinv.chain, greedyOne_word mw fs hw, ?_⟩
    intro llast hlast
    rcases hinv.last_ok llast hlast with ⟨-, hfit⟩ | ⟨hne, -⟩
    · by_cases hwnil : w = []
      · exact Or.inl ⟨hwnil, hfit⟩
      · refine Or.inr ⟨hwnil, ?_⟩
        unfold breakOk
        rw [splitChar_of_not_mem hw]
        intro hcontra
        exact hfit (wrapFits_mono mw fs hfs (by simp) hcontra)
    · exact absurd rfl hne
  · by_cases hfit : wrapFits mw fs (cur ++ ' ' :: w)
    · rw [wrapStep_pos mw fs lines cur w hcur hfit]
      have hsplit : splitChar ' ' (cur ++ ' ' :: w) = splitChar ' ' cur ++ [w] := by
        rw [splitChar_append_sep, splitChar_of_not_mem hw]
      refine ⟨hinv.lines_ok, hinv.chain, ?_, ?_⟩
      · unfold GreedyOne
        rw [hsplit, List.foldl_append, hinv.cur_ok, List.foldl_cons, List.foldl_nil,
          wrapStep_pos mw fs [] cur w hcur hfit]
      · intro llast hlast
        rcases hinv.last_ok llast hlast with ⟨habs, -⟩ | ⟨-, hbrk⟩
        · exact absurd habs hcur
        · refine Or.inr ⟨by simp, ?_⟩
          unfold breakOk at hbrk ⊢
          rw [hsplit]
          cases hc2 : splitChar ' ' cur with
          | nil => exact absurd hc2 (splitChar_ne_nil ' ' cur)
          | cons v vs =>
            rw [hc2] at hbrk
            simpa using hbrk
    · rw [wrapStep_neg mw fs lines cur w hcur hfit]
      refine ⟨?_, ?_, greedyOne_word mw fs hw, ?_⟩
      · intro l hl
        rcases List.mem_append.1 hl with hl | hl
        · exact hinv.lines_ok l hl
        · rw [List.mem_singleton] at hl
          exact hl ▸ ⟨hcur, hinv.cur_ok⟩
      · rw [List.chain'_append]
        refine ⟨hinv.chain, List.chain'_singleton _, ?_⟩
        intro x hx y hy
        rw [List.head?_cons, Option.mem_some_iff] at hy
        rcases hinv.last_ok x (by rwa [Option.mem_def] at hx) with ⟨habs, -⟩ | ⟨-, hbrk⟩
        · exact absurd habs hcur
        · exact hy ▸ hbrk
      · intro llast hlast
        rw [List.getLast?_concat, Option.some_inj] at hlast
        subst hlast
        by_cases hwnil : w = []
        · subst hwnil
          exact Or.inl ⟨rfl, by simpa using hfit⟩
        · refine Or.inr ⟨hwnil, ?_⟩
          unfold breakOk
          rwa [splitChar_of_not_mem hw]

theorem wrapInv_foldl (hfs : 0 ≤ fs) (ws : List PyStr) :
    ∀ st, (∀ w ∈ ws, ' ' ∉ w) → WrapInv mw fs st →
      WrapInv mw fs (ws.foldl (wrapStep mw fs) st) := by
  induction ws with
  | nil => intro st _ h; exact h
  | cons w ws ih =>
    intro st hws h
    rw [List.foldl_cons]
    exact ih _ (fun v hv => hws v (List.mem_cons_of_mem w hv))
      (wrapInv_step mw fs hfs (hws w (List.mem_cons_self w ws)) h)

end WrapProofs

section Replay

variable (mw fs : ℚ)

theorem dropLast_append_getLastD (l : PyStr) (L : List PyStr) :
    (l :: L).dropLast ++ [L.getLastD l] = l :: L := by
  induction L generalizing l with
  | nil => rfl
  | cons x xs ih =>
    rw [List.dropLast_cons₂, List.getLastD_cons, List.cons_append, ih x]

theorem wrap_replay (L' : List PyStr) :
    ∀ (l : PyStr) (A : List PyStr), l ≠ [] →
      (∀ x ∈ L', x ≠ [] ∧ GreedyOne mw fs x) →
      List.Chain' (breakOk mw fs) (l :: L') →
      (L'.flatMap (splitChar ' ')).foldl (wrapStep mw fs) (A, l)
        = (A ++ (l :: L').dropLast, L'.getLastD l) := by
  induction L' with
  | nil => intro l A _ _ _; simp
  | cons l2 L'' ih =>
    intro l A hl hL hchain
    have hl2 : l2 ≠ [] := (hL l2 (List.mem_cons_self l2 L'')).1
    have hg2 : GreedyOne mw fs l2 := (hL l2 (List.mem_cons_self l2 L'')).2
    have hbrk : breakOk mw fs l l2 := (List.chain'_cons.1 hchain).1
    cases hsp : splitChar ' ' l2 with
    | nil => exact absurd hsp (splitChar_ne_nil ' ' l2)
    | cons w ws =>
      have hstep1 : wrapStep mw fs (A, l) w = (A ++ [l], w) := by
        apply wrapStep_neg mw fs A l w hl
        unfold breakOk at hbrk
        rw [hsp] at hbrk
        simpa using hbrk
      have hrest : ws.foldl (wrapStep mw fs) ([], w) = ([], l2) := by
        have := hg2
        unfold GreedyOne at this
        rw [hsp, List.foldl_cons, wrapStep_nil_cur] at this
        exact this
      have hblock : (splitChar ' ' l2).foldl (wrapStep mw fs) (A, l) = (A ++ [l], l2) := by
        rw [hsp, List.foldl_cons, hstep1, wrap_foldl_frame, hrest]
        simp
      rw [List.flatMap_cons, List.foldl_append, hblock,
        ih l2 (A ++ [l]) hl2 (fun x hx => hL x (List.mem_cons_of_mem l2 hx))
          (List.chain'_cons.1 hchain).2,
        List.getLastD_cons, List.dropLast_cons₂]
      simp

end Replay

section MainWrapTheorems

/-- All structural facts about the finished line list of `wrap_text`. -/
theorem wrap_text_struct (t : PyStr) (mw fs : ℚ) (hfs : 0 ≤ fs) :
    (∀ l ∈ wrap_text t mw fs, l ≠ [] ∧ GreedyOne mw fs l) ∧
      List.Chain' (breakOk mw fs) (wrap_text t mw fs) := by
  have hinv : WrapInv mw fs ((splitChar ' ' t).foldl (wrapStep mw fs) ([], [])) :=
    wrapInv_foldl mw fs hfs _ _ (fun w hw => mem_splitChar_not_sep hw) (wrapInv_init mw fs)
  rcases hst : (splitChar ' ' t).foldl (wrapStep mw fs) ([], []) with ⟨lines, cur⟩
  rw [hst] at hinv
  have hwt : wrap_text t mw fs = if cur ≠ [] then lines ++ [cur] else lines := by
    simp only [wrap_text]
    rw [hst]
  by_cases hcur : cur = []
  · subst hcur
    rw [hwt]
    simp only [ne_eq, not_true_eq_false, if_false]
    exact ⟨hinv.lines_ok, hinv.chain⟩
  · rw [hwt, if_pos hcur]
    constructor
    · intro l hl
      rcases List.mem_append.1 hl with hl | hl
      · exact hinv.lines_ok l hl
      · rw [List.mem_singleton] at hl
        exact hl ▸ ⟨hcur, hinv.cur_ok⟩
    · rw [List.chain'_append]
      refine ⟨hinv.chain, List.chain'_singleton _, ?_⟩
      intro x hx y hy
      rw [List.head?_cons, Option.mem_some_iff] at hy
      rcases hinv.last_ok x (by rwa [Option.mem_def] at hx) with ⟨habs, -⟩ | ⟨-, hbrk⟩
      · exact absurd habs hcur
      · exact hy ▸ hbrk

/-- Re-wrapping the space-joined output of `wrap_text` reproduces it, for a
nonnegative font size. -/
theorem wrap_text_idem (t : PyStr) (mw fs : ℚ) (hfs : 0 ≤ fs) :
    wrap_text (joinSpace (wrap_text t mw fs)) mw fs = wrap_text t mw fs := by
  obtain ⟨hok, hchain⟩ := wrap_text_struct t mw fs hfs
  cases hL : wrap_text t mw fs with
  | nil =>
    show wrap_text (joinSpace []) mw fs = []
    exact wrap_text_nil mw fs
  | cons l L' =>
    rw [hL] at hok hchain
    have hl : l ≠ [] := (hok l (List.mem_cons_self l L')).1
    have hg : GreedyOne mw fs l := (hok l (List.mem_cons_self l L')).2
    have hsplit : splitChar ' ' (joinSpace (l :: L')) = (l :: L').flatMap (splitChar ' ') :=
      splitChar_joinSpace (l :: L') (by simp)
    have hfold : ((l :: L').flatMap (splitChar ' ')).foldl (wrapStep mw fs) ([], [])
        = ((l :: L').dropLast, L'.getLastD l) := by
      rw [List.flatMap_cons, List.foldl_append, hg,
        wrap_replay mw fs L' l [] hl (fun x hx => hok x (List.mem_cons_of_mem l hx)) hchain]
      simp
    have hlast_ne : L'.getLastD l ≠ [] :=
      (hok (L'.getLastD l) (List.getLastD_mem_cons L' l)).1
    simp only [wrap_text]
    rw [hsplit, hfold]
    simp only [hlast_ne, ne_eq, not_false_eq_true, if_true]
    exact dropLast_append_getLastD l L'

end MainWrapTheorems

section C7Section

/-- C7 invariant: every accumulated line fits or is an original word, and the
current line is empty, fits, or is an original word. -/
def FitInv (mw fs : ℚ) (W : List PyStr) (st : List PyStr × PyStr) : Prop :=
  (st.2 = [] ∨ wrapFits mw fs st.2 ∨ st.2 ∈ W) ∧
    ∀ l ∈ st.1, wrapFits mw fs l ∨ l ∈ W

theorem fitInv_step (mw fs : ℚ) (W : List PyStr) {st : List PyStr × PyStr} {w : PyStr}
    (hw : w ∈ W) (hinv : FitInv mw fs W st) :
    FitInv mw fs W (wrapStep mw fs st w) := by
  obtain ⟨lines, cur⟩ := st
  by_cases hcur : cur = []
  · subst hcur
    rw [wrapStep_nil_cur]
    exact ⟨Or.inr (Or.inr hw), hinv.2⟩
  · by_cases hfit : wrapFits mw fs (cur ++ ' ' :: w)
    · rw [wrapStep_pos mw fs lines cur w hcur hfit]
      exact ⟨Or.inr (Or.inl hfit), hinv.2⟩
    · rw [wrapStep_neg mw fs lines cur w hcur hfit]
      refine ⟨Or.inr (Or.inr hw), ?_⟩
      intro l hl
      rcases List.mem_append.1 hl with hl | hl
      · exact hinv.2 l hl
      · rw [List.mem_singleton] at hl
        subst hl
        rcases hinv.1 with h | h | h
        · exact absurd h hcur
        · exact Or.inl h
        · exact Or.inr h

theorem fitInv_foldl (mw fs : ℚ) (W ws : List PyStr) :
    ∀ st, (∀ w ∈ ws, w ∈ W) → FitInv mw fs W st →
      FitInv mw fs W (ws.foldl (wrapStep mw fs) st) := by
  induction ws with
  | nil => intro st _ h; exact h
  | cons w ws ih =>
    intro st hws h
    rw [List.foldl_cons]
    exact ih _ (fun v hv => hws v (List.mem_cons_of_mem w hv))
      (fitInv_step mw fs W (hws w (List.mem_cons_self w ws)) h)

/-- Every output line of `_wrap_text` fits the character-count width model,
except that an over-wide single word stands alone, unsplit. -/
theorem wrap_text_fits (t : PyStr) (mw fs : ℚ) :
    ∀ l ∈ wrap_text t mw fs,
      wrapFits mw fs l ∨ (¬ wrapFits mw fs l ∧ l ∈ splitChar ' ' t) := by
  have hinv : FitInv mw fs (splitChar ' ' t)
      ((splitChar ' ' t).foldl (wrapStep mw fs) ([], [])) :=
    fitInv_foldl mw fs _ _ _ (fun w hw => hw) ⟨Or.inl rfl, by simp⟩
  rcases hst : (splitChar ' ' t).foldl (wrapStep mw fs) ([], []) with ⟨lines, cur⟩
  rw [hst] at hinv
  have hwt : wrap_text t mw fs = if cur ≠ [] then lines ++ [cur] else lines := by
    simp only [wrap_text]
    rw [hst]
  intro l hl
  have hfree : wrapFits mw fs l ∨ l ∈ splitChar ' ' t := by
    rw [hwt] at hl
    by_cases hcur : cur = []
    · rw [if_neg (by simpa using hcur)] at hl
      exact hinv.2 l hl
    · rw [if_pos hcur] at hl
      rcases List.mem_append.1 hl with hl | hl
      · exact hinv.2 l hl
      · rw [List.mem_singleton] at hl
        subst hl
        rcases hinv.1 with h | h | h
        · exact absurd h hcur
        · exact Or.inl h
        · exact Or.inr h
  by_cases hf : wrapFits mw fs l
  · exact Or.inl hf
  · rcases hfree with h | h
    · exact Or.inl h
    · exact Or.inr ⟨hf, h⟩

end C7Section


/-! ## Pointwise evaluation helpers for the width test -/

theorem wrapFits_of_len (mw fs : ℚ) (s : PyStr) (n : ℕ) (hn : s.length = n)
    (h : (n : ℚ) * (fs * (1 / 2)) ≤ mw) : wrapFits mw fs s := by
  unfold wrapFits; rw [hn]; exact h

theorem not_wrapFits_of_len (mw fs : ℚ) (s : PyStr) (n : ℕ) (hn : s.length = n)
    (h : ¬ (n : ℚ) * (fs * (1 / 2)) ≤ mw) : ¬ wrapFits mw fs s := by
  unfold wrapFits; rw [hn]; exact h

/-! ## Claim C3: landmark offsets -/

theorem filterMap_eq_map_of_forall_some {α β : Type} (f : α → Option β) (g : α → β)
    (l : List α) (h : ∀ a ∈ l, f a = some (g a)) : l.filterMap f = l.map g := by
  induction l with
  | nil => rfl
  | cons x xs ih =>
    rw [List.filterMap_cons, h x (List.mem_cons_self x xs), List.map_cons,
      ih (fun a ha => h a (List.mem_cons_of_mem x ha))]

/-- C3. For an input whose lines are all non-empty after stripping,
`parse_landmarks` assigns the horizontal offsets `20, 45, 70` to the first
three landmarks (in order) and the fixed offset `50` to every later one:
the offset list is exactly `landmarkOffset` applied to `0, 1, …, N-1`. -/
theorem parse_landmarks_offsets (t : PyStr)
    (h : ∀ l ∈ splitChar '\n' (pyStrip t), pyStrip l ≠ []) :
    (parse_landmarks t).map (fun lm => lm.x)
      = (List.range (splitChar '\n' (pyStrip t)).length).map landmarkOffset := by
  have ht : t ≠ [] := by
    intro ht
    subst ht
    exact h [] (by decide) (by decide)
  unfold parse_landmarks
  rw [if_pos ht,
    filterMap_eq_map_of_forall_some _
      (fun p => ({ text := pyStrip p.2, x := landmarkOffset p.1, y := 35 } : Landmark))]
  · rw [List.map_map, List.enum]
    have hfst : ∀ n (l : List PyStr),
        (l.enumFrom n).map
            ((fun lm => lm.x) ∘ fun p =>
              ({ text := pyStrip p.2, x := landmarkOffset p.1, y := 35 } : Landmark))
          = (l.enumFrom n).map (fun p => landmarkOffset p.1) := by
      intro n l
      exact List.map_congr_left (fun p _ => rfl)
    rw [hfst, show (fun p : ℕ × PyStr => landmarkOffset p.1) = landmarkOffset ∘ Prod.fst
        from rfl, ← List.map_map, List.enumFrom_map_fst, ← List.range_eq_range']
  · intro p hp
    have hmem : p.2 ∈ splitChar '\n' (pyStrip t) :=
      List.get?_mem (List.mem_enum_iff_get?.1 hp)
    have hline : pyStrip p.2 ≠ [] := h p.2 hmem
    simp only [hline, ne_eq, not_false_eq_true, if_true]
    rfl

/-- C3 witness: the spec's scenario B. Seven landmark lines give the offsets
`[20, 45, 70, 50, 50, 50, 50]`. -/
theorem parse_landmarks_offsets_witness :
    (∀ l ∈ splitChar '\n' (pyStrip (ps "a\nb\nc\nd\ne\nf\ng")), pyStrip l ≠ []) ∧
      (parse_landmarks (ps "a\nb\nc\nd\ne\nf\ng")).map (fun lm => lm.x)
        = (List.range (splitChar '\n' (pyStrip (ps "a\nb\nc\nd\ne\nf\ng"))).length).map
            landmarkOffset ∧
      (parse_landmarks (ps "a\nb\nc\nd\ne\nf\ng")).map (fun lm => lm.x)
        = [20, 45, 70, 50, 50, 50, 50] :=
  ⟨by decide, parse_landmarks_offsets (ps "a\nb\nc\nd\ne\nf\ng") (by decide), by decide⟩

/-! ## The page composer (`pdf_generator.TopoGuidePDFGenerator`)

The stateful ReportLab canvas is modelled as a trace of drawing directives
(`Op`).  Helpers that cannot raise are plain `List Op`; helpers that can
raise a Python exception return `DrawResult = List Op × Option PyErr` — the
directives issued before the exception, plus the escaped exception if any.

External libraries are model inputs: an `ImgRef` (a path handed to
`PIL.Image.open`) carries its decode outcome (`decoded = none` models a
decode failure caught by the surrounding `try`), and the `qrcode` encoder is
passed in as a function argument.  The pixel dimensions and scaling that PIL
computes (`thumbnail`, `img.width / 2.83`) are not modelled: no claim
depends on them, so a drawn image is recorded as a tagged `drawImage`
directive without coordinates. -/

inductive Color
  | hex (s : PyStr)
  | white
  | green
  | red
  deriving Repr, DecidableEq

def GREEN_PRIMARY : Color := .hex (ps "#007A33")
def GREEN_LIGHT : Color := .hex (ps "#E8F5E9")
def OCHRE : Color := .hex (ps "#E8AF2E")
def TEXT_DARK : Color := .hex (ps "#333333")
def TEXT_LIGHT : Color := .hex (ps "#FFFFFF")
def GRAY_LIGHT : Color := .hex (ps "#F5F5F5")
def GRAY_BORDER : Color := .hex (ps "#DDDDDD")

/-- `reportlab.lib.units.mm = 72 / 25.4`, as an exact rational. -/
def qmm : ℚ := 360 / 127

/-- A4 portrait dimensions in points: `A4 = (210*mm, 297*mm)`. -/
def A4_W : ℚ := 210 * qmm
def A4_H : ℚ := 297 * qmm

/-- `LANDSCAPE_WIDTH, LANDSCAPE_HEIGHT = A4[1], A4[0]`. -/
def LANDSCAPE_WIDTH : ℚ := A4_H
def LANDSCAPE_HEIGHT : ℚ := A4_W

inductive ImgTag
  | logoLeft
  | logoRight
  | panoramic
  | topoMap
  | profile
  | qr
  deriving Repr, DecidableEq

inductive Op
  | rect (x y w h : ℚ) (fill stroke : Bool)
  | roundRect (x y w h r : ℚ) (fill stroke : Bool)
  | line (x1 y1 x2 y2 : ℚ)
  | drawString (x y : ℚ) (s : PyStr)
  | drawCentredString (x y : ℚ) (s : PyStr)
  | drawRightString (x y : ℚ) (s : PyStr)
  | drawImage (tag : ImgTag)
  | circle (x y r : ℚ) (fill stroke : Bool)
  | setFillColor (c : Color)
  | setFillColorRGBA (r g b a : ℚ)
  | setStrokeColor (c : Color)
  | setFont (name : PyStr) (size : ℚ)
  | setLineWidth (w : ℚ)
  | saveState
  | translate (x y : ℚ)
  | rotate (deg : ℚ)
  | restoreState
  | showPage
  | savePdf
  deriving Repr, DecidableEq

inductive PyErr
  | nameError (n : PyStr)
  | qrEncodingError
  deriving Repr, DecidableEq

/-- A computation on the canvas: the trace of issued directives and, if one
escaped, the Python exception that aborted it. -/
abbrev DrawResult := List Op × Option PyErr

/-- A helper that cannot raise. -/
def dpure (ops : List Op) : DrawResult := (ops, none)

/-- Sequencing: if `a` raised, `b` never runs. -/
def dthen (a b : DrawResult) : DrawResult :=
  match a.2 with
  | some _ => a
  | none => (a.1 ++ b.1, b.2)

/-- A path handed to `PIL.Image.open`; `decoded = none` models an
`Image.open`/decode failure (the exception is caught where the source
catches it). -/
structure ImgRef where
  decoded : Option Unit
  deriving Repr, DecidableEq

/-- `TopoGuidePDFGenerator._draw_header`.  A present, decodable logo is
drawn; a present but undecodable one hits `except: pass`. -/
def drawHeader (route_code route_name : PyStr)
    (logo_left logo_right : Option ImgRef) : List Op :=
  [.setFillColor GREEN_PRIMARY,
   .rect 0 (LANDSCAPE_HEIGHT - 20 * qmm) LANDSCAPE_WIDTH (20 * qmm) true false]
  ++ (match logo_left with
      | some img => match img.decoded with
        | some _ => [.drawImage .logoLeft]
        | none => []
      | none => [])
  ++ (match logo_right with
      | some img => match img.decoded with
        | some _ => [.drawImage .logoRight]
        | none => []
      | none => [])
  ++ [.setFillColor GREEN_PRIMARY, .setFont (ps "Helvetica-Bold") 28,
      .drawCentredString (LANDSCAPE_WIDTH / 2) (LANDSCAPE_HEIGHT - 14 * qmm) route_code,
      .setFillColor TEXT_DARK, .setFont (ps "Helvetica") 12,
      .drawCentredString (LANDSCAPE_WIDTH / 2) (LANDSCAPE_HEIGHT - 19 * qmm) route_name]

/-- The body of the `for landmark in landmarks` loop of `_draw_panoramic`:
a semi-transparent rounded tag sized to the text, then the white text. -/
def landmarkTagOps (lm : Landmark) : List Op :=
  [.setFillColorRGBA 0 0 0 (1 / 2),
   .roundRect (((lm.x : ℚ) - 20) * qmm)
     ((LANDSCAPE_HEIGHT - 20 * qmm - 55 * qmm + (lm.y : ℚ)) * qmm)
     ((lm.text.length : ℚ) * 3 * qmm + 5 * qmm) (8 * qmm) 2 true false,
   .setFillColor TEXT_LIGHT,
   .drawCentredString ((lm.x : ℚ) * qmm)
     ((LANDSCAPE_HEIGHT - 20 * qmm - 55 * qmm + (lm.y : ℚ) + 2) * qmm)
     lm.text]

/-- `TopoGuidePDFGenerator._draw_panoramic`.  A missing path skips the
`try` block entirely; a decode failure is caught (`print`) and drawing
continues.  In either case nothing is substituted: the "MIRADOR DEL PICO"
side label and the landmark tags are drawn next regardless.  The dict keys
read from each landmark are `x` (default 0), `y` (default 0), `text`
(default `''`); `parse_landmarks` always provides them. -/
def drawPanoramic (panoramic_path : Option ImgRef) (landmarks : List Landmark) :
    List Op :=
  (match panoramic_path with
   | some img => match img.decoded with
     | some _ => [.drawImage .panoramic]
     | none => []
   | none => [])
  ++ [.setFillColor GREEN_PRIMARY, .setFont (ps "Helvetica-Bold") 10,
      .saveState,
      .translate (8 * qmm) (LANDSCAPE_HEIGHT - 20 * qmm - (55 * qmm) / 2),
      .rotate 90,
      .drawCentredString 0 0 (ps "MIRADOR DEL PICO"),
      .restoreState]
  ++ (if landmarks ≠ [] then
        [.setFillColor TEXT_LIGHT, .setFont (ps "Helvetica-Bold") 8]
        ++ landmarks.flatMap landmarkTagOps
      else [])

/-- Column width used by `_draw_descriptions`: `(LANDSCAPE_WIDTH - 30*mm) * 0.65`. -/
def descColWidth : ℚ := (LANDSCAPE_WIDTH - 30 * qmm) * (65 / 100)

/-- The body of the `for i, paragraph in enumerate(paragraphs)` loop of
`_draw_descriptions`; the state is the accumulated directives and the
`y_position` cursor. -/
def descStep (acc : List Op × ℚ) (p : ℕ × PyStr) : List Op × ℚ :=
  if p.1 < 4 then
    let lines := (wrap_text p.2 descColWidth 9).take 3
    (acc.1 ++ lines.enum.map (fun q =>
        Op.drawString (15 * qmm) (acc.2 - (q.1 : ℚ) * (11 * qmm)) q.2),
     acc.2 - (lines.length : ℚ) * (11 * qmm) - 5 * qmm)
  else acc

/-- `TopoGuidePDFGenerator._draw_descriptions`: for each of the first four
paragraphs, draw at most the first 3 wrapped lines, advancing the text
cursor by 11 mm per line plus 5 mm between paragraphs. -/
def drawDescriptions (paragraphs : List PyStr) : List Op :=
  [.setFillColor TEXT_DARK, .setFont (ps "Helvetica") 9]
  ++ (paragraphs.enum.foldl descStep
      ([], LANDSCAPE_HEIGHT - 20 * qmm - 55 * qmm - 10 * qmm)).1

/-- The body of the `for rec in recommendations[:5]` loop of
`_draw_recommendations`: a bullet circle plus one `drawString` of `rec[:60]`
with `"..."` appended when `len(rec) > 60`. -/
def recommendationItemOps (box_x box_y : ℚ) (p : ℕ × PyStr) : List Op :=
  let y_recomm := box_y - 15 * qmm - (p.1 : ℚ) * (12 * qmm)
  [.setFillColor OCHRE,
   .circle (box_x + 7 * qmm) (y_recomm - 2 * qmm) (2 * qmm) true false,
   .setFillColor TEXT_DARK, .setFont (ps "Helvetica") 7,
   .drawString (box_x + 12 * qmm) (y_recomm - 5 * qmm)
     (p.2.take 60 ++ (if 60 < p.2.length then ps "..." else []))]

/-- `TopoGuidePDFGenerator._draw_recommendations`: panel chrome, then at
most `recommendations[:5]` items. -/
def drawRecommendations (recommendations : List PyStr) : List Op :=
  let box_x := LANDSCAPE_WIDTH - (LANDSCAPE_WIDTH - 30 * qmm) * (65 / 100) + 5 * qmm
  let box_width := (LANDSCAPE_WIDTH - 30 * qmm) * (30 / 100)
  let box_height := 100 * qmm
  let box_y := LANDSCAPE_HEIGHT - 20 * qmm - 55 * qmm - 10 * qmm
  [.setFillColor GRAY_LIGHT,
   .rect box_x (box_y - box_height) box_width box_height true false,
   .setStrokeColor GREEN_PRIMARY, .setLineWidth 2,
   .rect box_x (box_y - box_height) box_width box_height false true,
   .setFillColor GREEN_PRIMARY, .setFont (ps "Helvetica-Bold") 11,
   .drawString (box_x + 5 * qmm) (box_y - 8 * qmm) (ps "RECOMENDACIONES"),
   .setFillColor TEXT_DARK, .setFont (ps "Helvetica") 8]
  ++ (recommendations.take 5).enum.flatMap (recommendationItemOps box_x box_y)

def natToPyStr (n : Nat) : PyStr := (toString n).toList

/-- Names bound at module level in `pdf_generator.py` (its imports and its
two top-level definitions). -/
def pdfGeneratorModuleNames : List PyStr :=
  [ps "colors", ps "A4", ps "getSampleStyleSheet", ps "ParagraphStyle",
   ps "mm", ps "inch", ps "canvas", ps "Table", ps "TableStyle",
   ps "Paragraph", ps "TA_CENTER", ps "TA_JUSTIFY", ps "TA_LEFT",
   ps "Image", ps "io", ps "qrcode", ps "datetime",
   ps "TopoGuidePDFGenerator", ps "create_topoguide_pdf"]

/-- The local names of `_draw_footer` (its parameters; the body binds no
other local). -/
def drawFooterLocalNames : List PyStr := [ps "self", ps "page_num"]

/-- The name `data` that `_draw_footer`'s last statement reads is bound
neither locally nor at module level (nor is it a Python builtin). -/
theorem footer_data_name_unbound :
    ps "data" ∉ drawFooterLocalNames ∧ ps "data" ∉ pdfGeneratorModuleNames := by
  decide

/-- `TopoGuidePDFGenerator._draw_footer`.  Its final statement is
```python
self.c.drawRightString(self.LANDSCAPE_WIDTH - 10 * mm, 5 * mm,
                       data.get('date', datetime.now().strftime('%Y-%m-%d')))
```
where `data` is an unbound name (see `footer_data_name_unbound`), so
evaluating the third argument raises `NameError: name 'data' is not
defined` after the line and the two preceding strings have been drawn; the
`drawRightString` call itself is never issued. -/
def drawFooter (page_num : Nat) : DrawResult :=
  ([.setStrokeColor GREEN_PRIMARY, .setLineWidth 1,
    .line (10 * qmm) (10 * qmm) (LANDSCAPE_WIDTH - 10 * qmm) (10 * qmm),
    .setFillColor TEXT_DARK, .setFont (ps "Helvetica") 7,
    .drawString (10 * qmm) (5 * qmm)
      (ps "Topoguía de Senderismo - " ++ natToPyStr page_num ++ ps "/2"),
    .setFont (ps "Helvetica-Bold") 7,
    .drawCentredString (LANDSCAPE_WIDTH / 2) (5 * qmm) (ps "Castilla-La Mancha")],
   some (.nameError (ps "data")))

/-- The dict handed to `_draw_page1` (built by `create_topoguide_pdf`, but
`_draw_page1` applies its own `.get` defaults, so every field is optional). -/
structure Page1Data where
  route_code : Option PyStr
  route_name : Option PyStr
  panoramic_image : Option ImgRef
  landmarks : Option (List Landmark)
  paragraphs : Option (List PyStr)
  recommendations : Option (List PyStr)
  date : Option PyStr
  deriving Repr, DecidableEq

/-- `TopoGuidePDFGenerator._draw_page1`. -/
def drawPage1 (data : Page1Data) (logo_left logo_right : Option ImgRef) :
    DrawResult :=
  dthen (dpure (drawHeader (data.route_code.getD (ps "PR-GU 00"))
      (data.route_name.getD (ps "Nombre del Sendero")) logo_left logo_right))
  (dthen (dpure (drawPanoramic data.panoramic_image (data.landmarks.getD [])))
  (dthen (dpure (drawDescriptions (data.paragraphs.getD [])))
  (dthen (dpure (drawRecommendations (data.recommendations.getD [])))
  (drawFooter 1))))

/-- A waypoint dict, as read by `_draw_map` (`wp.get('x', 0)`,
`wp.get('y', 0)`, `wp.get('label', '')`, `wp.get('type')`; `label` is bound
but never used). -/
structure Waypoint where
  x : Option ℚ
  y : Option ℚ
  label : Option PyStr
  type : Option PyStr
  deriving Repr, DecidableEq

/-- The body of the `for wp in waypoints` loop of `_draw_map`: marker and
label per waypoint type (an unrecognised or absent type draws nothing; the
`label` value is read but unused by the source). -/
def waypointOps (map_width map_height map_x map_y : ℚ) (wp : Waypoint) : List Op :=
  let x := (wp.x.getD 0) * map_width / 100 + map_x
  let y := (wp.y.getD 0) * map_height / 100 + map_y
  if wp.type = some (ps "start") then
    [.setFillColor .green, .circle x y (4 * qmm) true true,
     .setFillColor .white, .drawCentredString x (y + 5 * qmm) (ps "INICIO")]
  else if wp.type = some (ps "end") then
    [.setFillColor .red, .circle x y (4 * qmm) true true,
     .setFillColor .white, .drawCentredString x (y + 5 * qmm) (ps "FINAL")]
  else if wp.type = some (ps "viewpoint") then
    [.setFillColor OCHRE, .circle x y (3 * qmm) true true]
  else []

/-- `TopoGuidePDFGenerator._draw_map`.  A missing or undecodable map image
is skipped (decode failure caught, `print`); the green border rectangle is
drawn in every case, then the waypoint markers. -/
def drawMap (map_path : Option ImgRef) (waypoints : List Waypoint) : List Op :=
  let map_width := LANDSCAPE_WIDTH - 30 * qmm
  let map_height := 80 * qmm
  let map_x := 10 * qmm
  let map_y := LANDSCAPE_HEIGHT - 25 * qmm - map_height
  (match map_path with
   | some img => match img.decoded with
     | some _ => [.drawImage .topoMap]
     | none => []
   | none => [])
  ++ [.setStrokeColor GREEN_PRIMARY, .setLineWidth 2,
      .rect map_x map_y map_width map_height false true]
  ++ (if waypoints ≠ [] then
        [.setFont (ps "Helvetica-Bold") 8]
        ++ waypoints.flatMap (waypointOps map_width map_height map_x map_y)
      else [])

/-- `TopoGuidePDFGenerator._draw_elevation_profile` (its `data` parameter is
unused by the body).  Image skipped when missing/undecodable; the four fixed
labels are drawn in every case. -/
def drawElevationProfile (profile_path : Option ImgRef) : List Op :=
  let profile_width := (LANDSCAPE_WIDTH - 30 * qmm) * (55 / 100)
  let profile_height := 50 * qmm
  let profile_x := 10 * qmm
  let profile_y := 15 * qmm + 55 * qmm
  (match profile_path with
   | some img => match img.decoded with
     | some _ => [.drawImage .profile]
     | none => []
   | none => [])
  ++ [.setFillColor GREEN_PRIMARY, .setFont (ps "Helvetica-Bold") 7,
      .drawCentredString (profile_x + 5 * qmm) (profile_y + profile_height + 2 * qmm)
        (ps "INICIO"),
      .drawCentredString (profile_x + profile_width * (30 / 100))
        (profile_y + profile_height + 2 * qmm) (ps "MIRABUENO"),
      .drawCentredString (profile_x + profile_width * (60 / 100))
        (profile_y + profile_height + 2 * qmm) (ps "ARAGOSA"),
      .drawCentredString (profile_x + profile_width - 20 * qmm)
        (profile_y + profile_height + 2 * qmm) (ps "FINAL")]

/-- The dict of technical data (`page2_data['technical']`); every reader
applies a `.get` default, so all fields are optional. -/
structure TechData where
  time : Option PyStr
  distance : Option PyStr
  elevation_up : Option PyStr
  elevation_down : Option PyStr
  route_type : Option PyStr
  emergency : Option PyStr
  phone : Option PyStr
  web : Option PyStr
  deriving Repr, DecidableEq

/-- The `data_rows` list of `_draw_technical_table`. -/
def technicalDataRows (data : TechData) : List (PyStr × PyStr) :=
  [(ps "Horario:", data.time.getD (ps "2h 30m")),
   (ps "Distancia:", data.distance.getD (ps "11,0 km")),
   (ps "Desnivel Subida:", data.elevation_up.getD (ps "167 m")),
   (ps "Desnivel Bajada:", data.elevation_down.getD (ps "167 m")),
   (ps "Tipo de Ruta:", data.route_type.getD (ps "Circular"))]

/-- `TopoGuidePDFGenerator._draw_technical_table`.  The source decides the
stripe with `data_rows.index((label, value)) % 2 == 0`; the five labels are
pairwise distinct, so `.index` of the current pair is the loop position. -/
def drawTechnicalTable (x y : ℚ) (data : TechData) (width : ℚ) : List Op :=
  [.setFillColor GREEN_PRIMARY,
   .rect x (y - 12 * qmm) width (8 * qmm) true false,
   .setFillColor TEXT_LIGHT, .setFont (ps "Helvetica-Bold") 9,
   .drawCentredString (x + width / 2) (y - 8 * qmm) (ps "FICHA TÉCNICA"),
   .setFont (ps "Helvetica-Bold") 8]
  ++ (technicalDataRows data).enum.flatMap (fun p =>
      let y_row := y - 12 * qmm - 7 * qmm - (p.1 : ℚ) * (7 * qmm)
      (if p.1 % 2 = 0 then
         [.setFillColor GREEN_LIGHT,
          .rect x (y_row - 2 * qmm) (width / 2) (7 * qmm) true false,
          .rect (x + width / 2) (y_row - 2 * qmm) (width / 2) (7 * qmm) true false]
       else [])
      ++ [.setFillColor TEXT_DARK,
          .drawString (x + 3 * qmm) y_row p.2.1,
          .setFont (ps "Helvetica") 8,
          .drawString (x + width / 2 + 3 * qmm) y_row p.2.2,
          .setFont (ps "Helvetica-Bold") 8])

/-- The MIDE dict; every reader applies a `.get` default. -/
structure MideData where
  severity : Option Int
  orientation : Option Int
  difficulty : Option Int
  effort : Option Int
  deriving Repr, DecidableEq

/-- The `mide_items` list of `_draw_mide_grid`. -/
def mideItems (mide_data : MideData) : List (PyStr × Int × PyStr) :=
  [(ps "SEVERIDAD DEL MEDIO", mide_data.severity.getD 1, ps "Medio"),
   (ps "ORIENTACIÓN", mide_data.orientation.getD 2, ps "Itinerario"),
   (ps "DIFICULTAD", mide_data.difficulty.getD 2, ps "Desplazamiento"),
   (ps "ESFUERZO", mide_data.effort.getD 2, ps "Esfuerzo")]

/-- The per-cell colour rule of `_draw_mide_grid`:
`value <= 2 → GREEN_PRIMARY`, `value == 3 → OCHRE`, otherwise `#E74C3C`. -/
def mideCellColor (value : Int) : Color :=
  if value ≤ 2 then GREEN_PRIMARY
  else if value = 3 then OCHRE
  else .hex (ps "#E74C3C")

def intToPyStr (i : Int) : PyStr := (toString i).toList

/-- `TopoGuidePDFGenerator._draw_mide_grid`: the 2x2 grid; each cell's
border and large value take `mideCellColor` of that cell's value. -/
def drawMideGrid (x y : ℚ) (mide_data : MideData) (width : ℚ) : List Op :=
  let cell_width := width / 2
  let cell_height := 25 * qmm
  (mideItems mide_data).enum.flatMap (fun p =>
    let cell_x := x + ((p.1 % 2 : ℕ) : ℚ) * cell_width
    let cell_y := y - ((p.1 / 2 : ℕ) : ℚ) * cell_height
    let color := mideCellColor p.2.2.1
    [.setStrokeColor color, .setLineWidth 3,
     .rect cell_x cell_y cell_width cell_height false true,
     .setFillColor color, .setFont (ps "Helvetica-Bold") 20,
     .drawCentredString (cell_x + cell_width / 2) (cell_y + cell_height / 2 - 3 * qmm)
       (intToPyStr p.2.2.1),
     .setFillColor TEXT_DARK, .setFont (ps "Helvetica-Bold") 7,
     .drawCentredString (cell_x + cell_width / 2) (cell_y + cell_height - 8 * qmm) p.2.1,
     .setFont (ps "Helvetica") 6,
     .drawCentredString (cell_x + cell_width / 2) (cell_y + cell_height - 14 * qmm) p.2.2.2])

/-- `TopoGuidePDFGenerator._draw_info_bottom`.  The QR block
```python
qr = qrcode.QRCode(box_size=10, border=0)
qr.add_data(data.get('web', 'http://example.com'))
qr.make(fit=True)
...
self.c.drawImage(...)
```
is guarded by no `try` and no emptiness test: the encoder is always invoked
with the URL value (the `'http://example.com'` default applies only when
the key is absent), and an encoder exception escapes the composer. -/
def drawInfoBottom (x y : ℚ) (data : TechData)
    (qrEncode : PyStr → Except PyErr Unit) : DrawResult :=
  let consejos := [ps "· Usa prismáticos", ps "· Respira el silencio",
    ps "· No enciendas fuego", ps "· Llévate la basura"]
  let pre : List Op :=
    [.setFillColor GREEN_PRIMARY, .setFont (ps "Helvetica-Bold") 8,
     .drawString x (y + 45 * qmm) (ps "SEÑALIZACIÓN"),
     .setFillColor .white,
     .rect (x + 5 * qmm) (y + 48 * qmm) (30 * qmm) (4 * qmm) true true,
     .rect (x + 38 * qmm) (y + 48 * qmm) (30 * qmm) (4 * qmm) true true,
     .rect (x + 71 * qmm) (y + 48 * qmm) (20 * qmm) (4 * qmm) true true,
     .setFillColor GREEN_PRIMARY, .setFont (ps "Helvetica-Bold") 8,
     .drawString x (y + 30 * qmm) (ps "DISFRUTA DEL PARQUE"),
     .setFillColor TEXT_DARK, .setFont (ps "Helvetica") 6]
    ++ consejos.enum.map (fun p =>
        Op.drawString x (y + 25 * qmm - (p.1 : ℚ) * (4 * qmm)) p.2)
    ++ [.setFillColor GREEN_PRIMARY, .setFont (ps "Helvetica-Bold") 8,
        .drawString x (y + 12 * qmm) (ps "TELÉFONOS DE INTERÉS"),
        .setFillColor (.hex (ps "#E74C3C")), .setFont (ps "Helvetica-Bold") 9,
        .drawString x (y + 7 * qmm) (ps "Emergencias: " ++ data.emergency.getD (ps "112")),
        .setFillColor TEXT_DARK, .setFont (ps "Helvetica") 7,
        .drawString x (y + 2 * qmm) (ps "Parque: " ++ data.phone.getD (ps "949 88 53 00")),
        .drawString x (y - 2 * qmm)
          (data.web.getD (ps "http://areasprotegidas.castillalamancha.es"))]
  match qrEncode (data.web.getD (ps "http://example.com")) with
  | .error e => (pre, some e)
  | .ok _ => (pre ++ [.drawImage .qr], none)

/-- `TopoGuidePDFGenerator._draw_mide_panel`. -/
def drawMidePanel (mide : MideData) (technical : TechData)
    (qrEncode : PyStr → Except PyErr Unit) : DrawResult :=
  let panel_x := LANDSCAPE_WIDTH - (LANDSCAPE_WIDTH - 30 * qmm) * (40 / 100) - 5 * qmm
  let panel_width := (LANDSCAPE_WIDTH - 30 * qmm) * (40 / 100)
  let panel_y := 15 * qmm
  let panel_height := 130 * qmm
  dthen (dpure
    ([.setFillColor GRAY_LIGHT,
      .rect panel_x panel_y panel_width panel_height true false,
      .setStrokeColor GREEN_PRIMARY, .setLineWidth 2,
      .rect panel_x panel_y panel_width panel_height false true]
     ++ drawTechnicalTable (panel_x + 5 * qmm) (panel_y + panel_height - 25 * qmm)
          technical (panel_width - 10 * qmm)
     ++ drawMideGrid (panel_x + 5 * qmm) (panel_y + panel_height - 75 * qmm)
          mide (panel_width - 10 * qmm)))
  (drawInfoBottom (panel_x + 5 * qmm) (panel_y + 5 * qmm) technical qrEncode)

/-- The dict handed to `_draw_page2`. -/
structure Page2Data where
  map_image : Option ImgRef
  profile_image : Option ImgRef
  waypoints : Option (List Waypoint)
  mide : Option MideData
  technical : Option TechData
  deriving Repr, DecidableEq

def emptyMide : MideData := ⟨none, none, none, none⟩

def emptyTech : TechData := ⟨none, none, none, none, none, none, none, none⟩

/-- `TopoGuidePDFGenerator._draw_page2`. -/
def drawPage2 (data : Page2Data) (qrEncode : PyStr → Except PyErr Unit) :
    DrawResult :=
  dthen (dpure
    ([.setFillColor GREEN_PRIMARY,
      .rect 0 (LANDSCAPE_HEIGHT - 15 * qmm) LANDSCAPE_WIDTH (15 * qmm) true false,
      .setFillColor TEXT_LIGHT, .setFont (ps "Helvetica-Bold") 14,
      .drawCentredString (LANDSCAPE_WIDTH / 2) (LANDSCAPE_HEIGHT - 10 * qmm)
        (ps "INFORMACIÓN TÉCNICA")]
     ++ drawMap data.map_image (data.waypoints.getD [])
     ++ drawElevationProfile data.profile_image))
  (dthen (drawMidePanel (data.mide.getD emptyMide) (data.technical.getD emptyTech) qrEncode)
  (drawFooter 2))

/-- `TopoGuidePDFGenerator.generate`: `showPage`, page 1, `showPage`,
page 2, `c.save()`.  (The width/height reassignment it performs keeps the
same values and is omitted.) -/
def generate (page1_data : Page1Data) (page2_data : Page2Data)
    (logo_left logo_right : Option ImgRef)
    (qrEncode : PyStr → Except PyErr Unit) : DrawResult :=
  dthen (dpure [.showPage])
  (dthen (drawPage1 page1_data logo_left logo_right)
  (dthen (dpure [.showPage])
  (dthen (drawPage2 page2_data qrEncode)
  (dpure [.savePdf]))))

/-- The flat input record of `create_topoguide_pdf` (every key optional). -/
structure RouteData where
  route_code : Option PyStr
  route_name : Option PyStr
  panoramic_image : Option ImgRef
  landmarks : Option (List Landmark)
  paragraphs : Option (List PyStr)
  recommendations : Option (List PyStr)
  date : Option PyStr
  map_image : Option ImgRef
  profile_image : Option ImgRef
  waypoints : Option (List Waypoint)
  mide : Option MideData
  time : Option PyStr
  distance : Option PyStr
  elevation_up : Option PyStr
  elevation_down : Option PyStr
  route_type : Option PyStr
  emergency : Option PyStr
  phone : Option PyStr
  web : Option PyStr
  deriving Repr, DecidableEq

/-- The `page1_data` dict built by `create_topoguide_pdf` (`today` models
`datetime.now().strftime('%Y-%m-%d')`). -/
def mkPage1Data (data : RouteData) (today : PyStr) : Page1Data :=
  { route_code := some (data.route_code.getD (ps "PR-GU 00")),
    route_name := some (data.route_name.getD (ps "Nombre del Sendero")),
    panoramic_image := data.panoramic_image,
    landmarks := some (data.landmarks.getD []),
    paragraphs := some (data.paragraphs.getD []),
    recommendations := some (data.recommendations.getD []),
    date := some (data.date.getD today) }

/-- The `page2_data` dict built by `create_topoguide_pdf`. -/
def mkPage2Data (data : RouteData) : Page2Data :=
  { map_image := data.map_image,
    profile_image := data.profile_image,
    waypoints := some (data.waypoints.getD []),
    mide := some (data.mide.getD
      { severity := some 1, orientation := some 2,
        difficulty := some 2, effort := some 2 }),
    technical := some
      { time := some (data.time.getD (ps "2h 35m")),
        distance := some (data.distance.getD (ps "11,0 km")),
        elevation_up := some (data.elevation_up.getD (ps "167 m")),
        elevation_down := some (data.elevation_down.getD (ps "167 m")),
        route_type := some (data.route_type.getD (ps "Circular")),
        emergency := some (data.emergency.getD (ps "112")),
        phone := some (data.phone.getD (ps "949 88 53 00")),
        web := some (data.web.getD (ps "http://areasprotegidas.castillalamancha.es")) } }

/-- `pdf_generator.create_topoguide_pdf`: no validation of any kind; builds
the two page dicts (with defaults for absent keys) and calls `generate`. -/
def create_topoguide_pdf (data : RouteData) (logo_left logo_right : Option ImgRef)
    (today : PyStr) (qrEncode : PyStr → Except PyErr Unit) : DrawResult :=
  generate (mkPage1Data data today) (mkPage2Data data) logo_left logo_right qrEncode

/-! ## The Streamlit layer (`app.py`) -/

/-- `app.COLOR_PRIMARY`. -/
def COLOR_PRIMARY : PyStr := ps "#007A33"

/-- `app.COLOR_SECONDARY`. -/
def COLOR_SECONDARY : PyStr := ps "#E8AF2E"

/-- The colour rule of the `for val in mide_values` loop in `app.tab_mide`:
`val <= 2 → COLOR_PRIMARY`, `val == 3 → COLOR_SECONDARY`, else `#E74C3C`. -/
def appMideColor (val : Int) : PyStr :=
  if val ≤ 2 then COLOR_PRIMARY
  else if val = 3 then COLOR_SECONDARY
  else ps "#E74C3C"

/-- `mide_colors` as accumulated by `app.tab_mide` over
`mide_values = [severity, orientation, difficulty, effort]`. -/
def appMideColors (mide_values : List Int) : List PyStr :=
  mide_values.map appMideColor

/-- The record returned by `app.tab_datos_basicos` (Streamlit text inputs
are plain strings, possibly empty). -/
structure BasicData where
  route_code : PyStr
  route_name : PyStr
  route_type : PyStr
  paragraphs : List PyStr
  deriving Repr, DecidableEq

/-- The record returned by `app.tab_imagenes` (uploads may be absent;
`landmarks` is the raw multi-line text). -/
structure ImagesData where
  panoramic : Option ImgRef
  topoMap : Option ImgRef
  profile : Option ImgRef
  landmarks : PyStr
  deriving Repr, DecidableEq

/-- The record returned by `app.tab_metricas` (already formatted strings). -/
structure MetricsData where
  distance : PyStr
  time : PyStr
  elevation_up : PyStr
  elevation_down : PyStr
  deriving Repr, DecidableEq

/-- The record returned by `app.tab_mide`: the four slider values, all
present, each drawn from `[1, 2, 3, 4, 5]`. -/
structure AppMide where
  severity : Int
  orientation : Int
  difficulty : Int
  effort : Int
  deriving Repr, DecidableEq

/-- The record returned by `app.tab_info_adicional`. -/
structure AdditionalData where
  recommendations : List PyStr
  emergency : PyStr
  phone : PyStr
  web : PyStr
  logo_left : Option ImgRef
  logo_right : Option ImgRef
  deriving Repr, DecidableEq

/-- `app.generate_pdf`: assembles the flat `pdf_data` dict (every key
present) and calls `create_topoguide_pdf(output_path, pdf_data)` — note the
uploaded logos are collected into `logo_paths` but never passed on, so the
generator receives `logo_left = logo_right = None`. -/
def generate_pdf (basic : BasicData) (images : ImagesData) (metrics : MetricsData)
    (mide : AppMide) (additional : AdditionalData) (today : PyStr)
    (qrEncode : PyStr → Except PyErr Unit) : DrawResult :=
  create_topoguide_pdf
    { route_code := some basic.route_code,
      route_name := some basic.route_name,
      route_type := some basic.route_type,
      paragraphs := some basic.paragraphs,
      panoramic_image := images.panoramic,
      map_image := images.topoMap,
      profile_image := images.profile,
      landmarks := some (parse_landmarks images.landmarks),
      distance := some metrics.distance,
      time := some metrics.time,
      elevation_up := some metrics.elevation_up,
      elevation_down := some metrics.elevation_down,
      waypoints := none,
      mide := some
        { severity := some mide.severity,
          orientation := some mide.orientation,
          difficulty := some mide.difficulty,
          effort := some mide.effort },
      recommendations := some additional.recommendations,
      emergency := some additional.emergency,
      phone := some additional.phone,
      web := some additional.web,
      date := some today }
    none none today qrEncode

/-- The outcome of pressing the generate button in `app.main`. -/
inductive MainOutcome
  | refusedValidation
  | pdfError (e : PyErr)
  | pdfDownload
  deriving Repr, DecidableEq

/-- The generate-button branch of `app.main`:
```python
if not basic_data['route_code'] or not basic_data['route_name']:
    st.error(...)
else:
    ... pdf_path = generate_pdf(all_data) ... st.download_button(...)
```
Returns the outcome together with the canvas trace actually produced
(empty when validation refuses: `generate_pdf` is never called). -/
def appMain (basic : BasicData) (images : ImagesData) (metrics : MetricsData)
    (mide : AppMide) (additional : AdditionalData) (today : PyStr)
    (qrEncode : PyStr → Except PyErr Unit) : MainOutcome × List Op :=
  if basic.route_code = [] ∨ basic.route_name = [] then
    (.refusedValidation, [])
  else
    let r := generate_pdf basic images metrics mide additional today qrEncode
    match r.2 with
    | some e => (.pdfError e, r.1)
    | none => (.pdfDownload, r.1)

/-! ## Trace projections -/

/-- The contents of the `drawCentredString` directives of a trace, in order. -/
def cstrTexts (ops : List Op) : List PyStr :=
  ops.filterMap fun op => match op with
    | .drawCentredString _ _ s => some s
    | _ => none

/-- The contents of the `drawString` directives of a trace, in order. -/
def strTexts (ops : List Op) : List PyStr :=
  ops.filterMap fun op => match op with
    | .drawString _ _ s => some s
    | _ => none

/-- The tags of the `drawImage` directives of a trace, in order. -/
def imgTags (ops : List Op) : List ImgTag :=
  ops.filterMap fun op => match op with
    | .drawImage tag => some tag
    | _ => none

/-- Whether a directive paints a filled box (filled `rect` or `roundRect`). -/
def isFilledBox (op : Op) : Bool :=
  match op with
  | .rect _ _ _ _ fill _ => fill
  | .roundRect _ _ _ _ _ fill _ => fill
  | _ => false

/-- The stroke colours set in a trace, in order. -/
def strokeColors (ops : List Op) : List Color :=
  ops.filterMap fun op => match op with
    | .setStrokeColor c => some c
    | _ => none

/-! ## Claim C4: rating-cell colours -/

/-- C4. The colour of each rating cell is chosen from its value `v` by the
threshold rule — `v ∈ {1,2}` gives the low colour (the corporate green),
`v = 3` the mid colour (ochre), `v ∈ {4,5}` the high colour (`#E74C3C`) —
in both implementations (`_draw_mide_grid` and the `tab_mide` preview), and
`_draw_mide_grid` applies the rule to each of the four cells independently:
the stroke colours of the grid are exactly `mideCellColor` of the four
(defaulted) rating values, in order. -/
theorem mide_rating_color_thresholds :
    (∀ v : Int,
      ((v = 1 ∨ v = 2) →
        mideCellColor v = GREEN_PRIMARY ∧ appMideColor v = COLOR_PRIMARY) ∧
      (v = 3 → mideCellColor v = OCHRE ∧ appMideColor v = COLOR_SECONDARY) ∧
      ((v = 4 ∨ v = 5) →
        mideCellColor v = Color.hex (ps "#E74C3C") ∧ appMideColor v = ps "#E74C3C")) ∧
    (∀ (x y w : ℚ) (md : MideData),
      strokeColors (drawMideGrid x y md w)
        = [mideCellColor (md.severity.getD 1), mideCellColor (md.orientation.getD 2),
           mideCellColor (md.difficulty.getD 2), mideCellColor (md.effort.getD 2)]) ∧
    (∀ s o d e : Int, appMideColors [s, o, d, e]
        = [appMideColor s, appMideColor o, appMideColor d, appMideColor e]) := by
  refine ⟨?_, ?_, ?_⟩
  · intro v
    refine ⟨?_, ?_, ?_⟩
    · rintro (rfl | rfl) <;> exact ⟨by decide, by decide⟩
    · rintro rfl
      exact ⟨by decide, by decide⟩
    · rintro (rfl | rfl) <;> exact ⟨by decide, by decide⟩
  · intro x y w md
    simp [drawMideGrid, mideItems, strokeColors, List.enum, List.enumFrom_cons,
      List.flatMap_cons, List.flatMap_nil, List.filterMap_cons]
  · intro s o d e
    rfl

/-- C4 witness: the rule evaluated at one value of each band. -/
theorem mide_rating_color_thresholds_witness :
    (mideCellColor 2 = GREEN_PRIMARY ∧ appMideColor 2 = COLOR_PRIMARY) ∧
    (mideCellColor 3 = OCHRE ∧ appMideColor 3 = COLOR_SECONDARY) ∧
    (mideCellColor 5 = Color.hex (ps "#E74C3C") ∧ appMideColor 5 = ps "#E74C3C") :=
  ⟨(mide_rating_color_thresholds.1 2).1 (Or.inr rfl),
   (mide_rating_color_thresholds.1 3).2.1 rfl,
   (mide_rating_color_thresholds.1 5).2.2 (Or.inr rfl)⟩

/-! ## Claim C5: the UI refuses empty code or name -/

/-- C5. If the route code or the route name collected by the form is the
empty string, the generate button shows a validation error, `generate_pdf`
is never invoked, no canvas directive is issued and no document is
produced. -/
theorem appMain_refuses_empty_code_or_name
    (basic : BasicData) (images : ImagesData) (metrics : MetricsData)
    (mide : AppMide) (additional : AdditionalData) (today : PyStr)
    (qrEncode : PyStr → Except PyErr Unit)
    (h : basic.route_code = [] ∨ basic.route_name = []) :
    appMain basic images metrics mide additional today qrEncode
      = (.refusedValidation, []) := by
  unfold appMain
  rw [if_pos h]

/-- C5 witness: the spec's scenario C (empty `code`). -/
theorem appMain_refuses_empty_code_or_name_witness :
    appMain ⟨[], ps "Sendero X", ps "Circular", []⟩ ⟨none, none, none, []⟩
        ⟨ps "11,0 km", ps "2h 35m", ps "167 m", ps "167 m"⟩ ⟨1, 2, 2, 2⟩
        ⟨[], ps "112", ps "949 88 53 00", ps "http://example.org", none, none⟩
        (ps "2026-10-12") (fun _ => .ok ())
      = (.refusedValidation, []) :=
  appMain_refuses_empty_code_or_name _ _ _ _ _ _ _ (Or.inl rfl)

/-! ## Claim C1: generation always raises -/

theorem dthen_pure (ops : List Op) (b : DrawResult) :
    dthen (dpure ops) b = (ops ++ b.1, b.2) := rfl

theorem dthen_err {a : DrawResult} (b : DrawResult) {e : PyErr} (h : a.2 = some e) :
    dthen a b = a := by
  unfold dthen
  rw [h]

theorem savePdf_not_mem_header (rc rn : PyStr) (ll lr : Option ImgRef) :
    Op.savePdf ∉ drawHeader rc rn ll lr := by
  rcases ll with _ | ⟨_ | _⟩ <;> rcases lr with _ | ⟨_ | _⟩ <;> simp [drawHeader]

theorem savePdf_not_mem_panoramic (p : Option ImgRef) (lms : List Landmark) :
    Op.savePdf ∉ drawPanoramic p lms := by
  rcases p with _ | ⟨_ | _⟩ <;>
    simp [drawPanoramic, List.mem_flatMap, landmarkTagOps]

theorem savePdf_not_mem_desc_foldl (l : List (ℕ × PyStr)) :
    ∀ acc : List Op × ℚ, Op.savePdf ∉ acc.1 →
      Op.savePdf ∉ (l.foldl descStep acc).1 := by
  induction l with
  | nil => intro acc h; exact h
  | cons p l ih =>
    intro acc h
    rw [List.foldl_cons]
    refine ih _ ?_
    unfold descStep
    split
    · intro hmem
      rcases List.mem_append.1 hmem with hm | hm
      · exact h hm
      · rcases List.mem_map.1 hm with ⟨q, -, hq⟩
        exact Op.noConfusion hq
    · exact h

theorem savePdf_not_mem_descriptions (paras : List PyStr) :
    Op.savePdf ∉ drawDescriptions paras := by
  unfold drawDescriptions
  intro hmem
  rcases List.mem_append.1 hmem with hm | hm
  · simp at hm
  · exact savePdf_not_mem_desc_foldl _ _ (by simp) hm

theorem savePdf_not_mem_recommendations (recs : List PyStr) :
    Op.savePdf ∉ drawRecommendations recs := by
  simp [drawRecommendations, List.mem_flatMap, recommendationItemOps]

theorem savePdf_not_mem_footer (n : Nat) : Op.savePdf ∉ (drawFooter n).1 := by
  simp [drawFooter]

theorem drawPage1_err (data : Page1Data) (ll lr : Option ImgRef) :
    (drawPage1 data ll lr).2 = some (.nameError (ps "data")) := by
  simp [drawPage1, dthen, dpure, drawFooter]

theorem drawPage1_ops (data : Page1Data) (ll lr : Option ImgRef) :
    (drawPage1 data ll lr).1 =
      drawHeader (data.route_code.getD (ps "PR-GU 00"))
          (data.route_name.getD (ps "Nombre del Sendero")) ll lr
        ++ drawPanoramic data.panoramic_image (data.landmarks.getD [])
        ++ drawDescriptions (data.paragraphs.getD [])
        ++ drawRecommendations (data.recommendations.getD [])
        ++ (drawFooter 1).1 := by
  simp [drawPage1, dthen, dpure, drawFooter]

/-- C1.  Generation never completes: for every pair of page records (any
route code and name, empty or not), `generate` raises
`NameError: name 'data' is not defined` from `_draw_footer` while drawing
page 1, and `c.save()` is never reached, so no two-page document is
produced.  (The claim that generation succeeds with a two-page output is
therefore false on the code for every input.) -/
theorem generate_always_raises_nameError (p1 : Page1Data) (p2 : Page2Data)
    (ll lr : Option ImgRef) (qrEncode : PyStr → Except PyErr Unit) :
    (generate p1 p2 ll lr qrEncode).2 = some (.nameError (ps "data")) ∧
      Op.savePdf ∉ (generate p1 p2 ll lr qrEncode).1 := by
  have herr := drawPage1_err p1 ll lr
  unfold generate
  rw [dthen_pure, dthen_err _ herr]
  refine ⟨herr, ?_⟩
  intro hmem
  rcases List.mem_append.1 hmem with hm | hm
  · simp at hm
  · rw [drawPage1_ops] at hm
    rcases List.mem_append.1 hm with hm | hm
    · rcases List.mem_append.1 hm with hm | hm
      · rcases List.mem_append.1 hm with hm | hm
        · rcases List.mem_append.1 hm with hm | hm
          · exact savePdf_not_mem_header _ _ _ _ hm
          · exact savePdf_not_mem_panoramic _ _ hm
        · exact savePdf_not_mem_descriptions _ hm
      · exact savePdf_not_mem_recommendations _ hm
    · exact savePdf_not_mem_footer _ hm

/-! ## Claim C10: `create_topoguide_pdf` never refuses -/

theorem cstrTexts_header (rc rn : PyStr) (ll lr : Option ImgRef) :
    cstrTexts (drawHeader rc rn ll lr) = [rc, rn] := by
  rcases ll with _ | ⟨_ | _⟩ <;> rcases lr with _ | ⟨_ | _⟩ <;>
    simp [drawHeader, cstrTexts]

/-- C10.  The public entry point `create_topoguide_pdf` enforces no
precondition: for every record — a missing `route_code`/`route_name` key,
the empty string, anything — it proceeds straight into composition.  The
first two centred-text directives of the attempted trace are the header
title and subtitle, equal to the given code and name with the fixed
defaults `'PR-GU 00'` / `'Nombre del Sendero'` substituted exactly when the
key is absent, and the trace is never empty (drawing always starts).  The
non-empty check lives only in `app.main` (see the C5 theorem). -/
theorem create_topoguide_pdf_never_refuses (data : RouteData)
    (ll lr : Option ImgRef) (today : PyStr)
    (qrEncode : PyStr → Except PyErr Unit) :
    (cstrTexts (create_topoguide_pdf data ll lr today qrEncode).1).take 2
        = [data.route_code.getD (ps "PR-GU 00"),
           data.route_name.getD (ps "Nombre del Sendero")] ∧
      (create_topoguide_pdf data ll lr today qrEncode).1 ≠ [] := by
  unfold create_topoguide_pdf generate
  rw [dthen_pure, dthen_err _ (drawPage1_err _ _ _)]
  constructor
  · rw [drawPage1_ops]
    simp only [mkPage1Data, Option.getD_some, cstrTexts, List.filterMap_append,
      List.filterMap_cons, List.filterMap_nil, List.nil_append]
    rw [show List.filterMap (fun op => match op with
        | Op.drawCentredString _ _ s => some s
        | _ => none)
        (drawHeader (data.route_code.getD (ps "PR-GU 00"))
          (data.route_name.getD (ps "Nombre del Sendero")) ll lr)
      = [data.route_code.getD (ps "PR-GU 00"),
         data.route_name.getD (ps "Nombre del Sendero")]
      from cstrTexts_header _ _ _ _]
    simp
  · simp

/-! ## Claim C2: missing images — skip, not placeholder -/

/-- Modelled from the spec: the glossary defines the "placeholder panel" as
"a neutral filled box with a `no image` caption"; drawing one therefore
requires at least one filled-box directive in the trace.  This necessary
condition is what the counterexample refutes. -/
def drawsPlaceholderPanel (ops : List Op) : Prop :=
  ∃ op ∈ ops, isFilledBox op = true

instance (ops : List Op) : Decidable (drawsPlaceholderPanel ops) := by
  unfold drawsPlaceholderPanel
  infer_instance

/-- C2 counterexample: with a null panoramic image (and no landmarks) the
panoramic region draws no filled box at all — hence no placeholder panel,
in particular none with a "no image" caption; the only text drawn is the
fixed side label. -/
theorem panoramic_no_placeholder_cex :
    ¬ drawsPlaceholderPanel (drawPanoramic none []) ∧
      cstrTexts (drawPanoramic none []) = [ps "MIRADOR DEL PICO"] ∧
      strTexts (drawPanoramic none []) = [] :=
  ⟨by decide, by decide, by decide⟩

theorem cstrTexts_landmarkTagOps (lm : Landmark) :
    cstrTexts (landmarkTagOps lm) = [lm.text] := rfl

theorem imgTags_landmarkTagOps (lm : Landmark) :
    imgTags (landmarkTagOps lm) = [] := rfl

theorem imgTags_waypointOps (mw mh mx my : ℚ) (wp : Waypoint) :
    imgTags (waypointOps mw mh mx my wp) = [] := by
  unfold waypointOps
  split_ifs <;> rfl

/-- C2 amended.  When an image-bearing region's reference is null or fails
to decode, the composer draws **no** image and **no** placeholder panel for
it: it simply skips the image and continues composing — `_draw_panoramic`
still draws the side label and every landmark tag, `_draw_map` still draws
its standing border rectangle, and `_draw_elevation_profile` still draws
its four fixed labels — and no error escapes (all three helpers return
plain traces; the decode failure is caught inside). -/
theorem flatMap_singleton_map {α β : Type} (l : List α) (f : α → β) :
    (l.flatMap fun a => [f a]) = l.map f := by
  induction l with
  | nil => rfl
  | cons x xs ih => rw [List.flatMap_cons, List.map_cons, ih]; rfl

theorem image_regions_skip_and_continue (p m pr : Option ImgRef)
    (lms : List Landmark) (wps : List Waypoint)
    (hp : ∀ i, p = some i → i.decoded = none)
    (hm : ∀ i, m = some i → i.decoded = none)
    (hpr : ∀ i, pr = some i → i.decoded = none) :
    imgTags (drawPanoramic p lms) = [] ∧
      cstrTexts (drawPanoramic p lms)
        = ps "MIRADOR DEL PICO" :: lms.map (fun lm => lm.text) ∧
      imgTags (drawMap m wps) = [] ∧
      Op.rect (10 * qmm) (LANDSCAPE_HEIGHT - 25 * qmm - 80 * qmm)
          (LANDSCAPE_WIDTH - 30 * qmm) (80 * qmm) false true ∈ drawMap m wps ∧
      imgTags (drawElevationProfile pr) = [] ∧
      cstrTexts (drawElevationProfile pr)
        = [ps "INICIO", ps "MIRABUENO", ps "ARAGOSA", ps "FINAL"] := by
  have himgp : (match p with
      | some img => match img.decoded with
        | some _ => ([.drawImage .panoramic] : List Op)
        | none => []
      | none => []) = [] := by
    rcases p with _ | i
    · rfl
    · have hd := hp i rfl
      simp [hd]
  have himgm : (match m with
      | some img => match img.decoded with
        | some _ => ([.drawImage .topoMap] : List Op)
        | none => []
      | none => []) = [] := by
    rcases m with _ | i
    · rfl
    · have hd := hm i rfl
      simp [hd]
  have himgpr : (match pr with
      | some img => match img.decoded with
        | some _ => ([.drawImage .profile] : List Op)
        | none => []
      | none => []) = [] := by
    rcases pr with _ | i
    · rfl
    · have hd := hpr i rfl
      simp [hd]
  refine ⟨?_, ?_, ?_, ?_, ?_, ?_⟩
  · unfold drawPanoramic
    rw [himgp, List.nil_append]
    by_cases hl : lms = []
    · subst hl
      decide
    · rw [if_pos hl]
      simp only [imgTags, List.filterMap_append, List.filterMap_cons,
        List.filterMap_nil, List.filterMap_flatMap]
      rw [List.nil_append, List.nil_append, List.flatMap_eq_nil_iff]
      intro lm _
      exact imgTags_landmarkTagOps lm
  · unfold drawPanoramic
    rw [himgp, List.nil_append]
    by_cases hl : lms = []
    · subst hl
      decide
    · rw [if_pos hl]
      simp only [cstrTexts, List.filterMap_append, List.filterMap_cons,
        List.filterMap_nil, List.filterMap_flatMap]
      rw [show (lms.flatMap fun a => List.filterMap (fun op => match op with
          | Op.drawCentredString _ _ s => some s
          | _ => none) (landmarkTagOps a))
        = lms.flatMap (fun a => [a.text]) from
          List.flatMap_congr (fun lm _ => cstrTexts_landmarkTagOps lm),
        flatMap_singleton_map]
      rfl
  · simp only [drawMap]
    rw [himgm, List.nil_append]
    by_cases hw : wps = []
    · subst hw
      decide
    · rw [if_pos hw]
      simp only [imgTags, List.filterMap_append, List.filterMap_cons,
        List.filterMap_nil, List.filterMap_flatMap]
      rw [List.nil_append, List.nil_append, List.flatMap_eq_nil_iff]
      intro wp _
      exact imgTags_waypointOps _ _ _ _ wp
  · simp only [drawMap]
    rw [himgm, List.nil_append]
    apply List.mem_append_left
    simp
  · simp only [drawElevationProfile]
    rw [himgpr, List.nil_append]
    rfl
  · simp only [drawElevationProfile]
    rw [himgpr, List.nil_append]
    rfl

/-- C2 amended witness: all three image references null, no overlays. -/
theorem image_regions_skip_and_continue_witness :
    imgTags (drawPanoramic none []) = [] ∧
      cstrTexts (drawPanoramic none [])
        = ps "MIRADOR DEL PICO" :: ([] : List Landmark).map (fun lm => lm.text) ∧
      imgTags (drawMap none []) = [] ∧
      Op.rect (10 * qmm) (LANDSCAPE_HEIGHT - 25 * qmm - 80 * qmm)
          (LANDSCAPE_WIDTH - 30 * qmm) (80 * qmm) false true ∈ drawMap none [] ∧
      imgTags (drawElevationProfile none) = [] ∧
      cstrTexts (drawElevationProfile none)
        = [ps "INICIO", ps "MIRABUENO", ps "ARAGOSA", ps "FINAL"] :=
  image_regions_skip_and_continue none none none [] []
    (fun _ h => Option.noConfusion h) (fun _ h => Option.noConfusion h)
    (fun _ h => Option.noConfusion h)

/-! ## Claim C6: the QR code is always attempted, never skipped -/

/-- C6 counterexample: with the contact web URL present as the **empty
string** (so the `'http://example.com'` default does not apply) and an
encoder that succeeds, `_draw_info_bottom` still encodes and draws a QR
image — the contact block is *not* rendered without one. -/
theorem qr_drawn_for_empty_url_cex :
    imgTags (drawInfoBottom 0 0
        { emptyTech with web := some [] } (fun _ => .ok ())).1 = [.qr] ∧
      (drawInfoBottom 0 0 { emptyTech with web := some [] } (fun _ => .ok ())).2
        = none := by
  constructor
  · rfl
  · rfl

/-- C6 amended.  `_draw_info_bottom` always invokes the QR encoder on the
(defaulted) web URL — empty or not.  If the encoder succeeds, the QR image
is drawn after the contact text; if it raises, the exception escapes the
composer uncaught (nothing is "silently skipped"). -/
theorem qr_always_attempted (x y : ℚ) (data : TechData)
    (qrEncode : PyStr → Except PyErr Unit) :
    (∀ e, qrEncode (data.web.getD (ps "http://example.com")) = .error e →
      (drawInfoBottom x y data qrEncode).2 = some e ∧
        imgTags (drawInfoBottom x y data qrEncode).1 = []) ∧
    (∀ u, qrEncode (data.web.getD (ps "http://example.com")) = .ok u →
      (drawInfoBottom x y data qrEncode).2 = none ∧
        imgTags (drawInfoBottom x y data qrEncode).1 = [.qr]) := by
  constructor
  · intro e he
    unfold drawInfoBottom
    rw [he]
    refine ⟨rfl, ?_⟩
    simp [imgTags, List.filterMap_append]
  · intro u hu
    unfold drawInfoBottom
    rw [hu]
    refine ⟨rfl, ?_⟩
    simp [imgTags, List.filterMap_append]

/-- C6 amended witness: a failing encoder on the default URL propagates its
exception and draws no QR. -/
theorem qr_always_attempted_witness :
    ((fun _ => (.error .qrEncodingError : Except PyErr Unit))
        ((emptyTech.web).getD (ps "http://example.com")) = .error .qrEncodingError) ∧
      (drawInfoBottom 0 0 emptyTech (fun _ => .error .qrEncodingError)).2
          = some .qrEncodingError ∧
      imgTags (drawInfoBottom 0 0 emptyTech
        (fun _ => .error .qrEncodingError)).1 = [] :=
  ⟨rfl, (qr_always_attempted 0 0 emptyTech (fun _ => .error .qrEncodingError)).1
    .qrEncodingError rfl⟩

/-! ## Claim C9: recommendations are capped and truncated, not wrapped -/

/-- A single space-free word is never split by `_wrap_text`: it comes back
as the one and only line, whatever the width and font size. -/
theorem wrap_text_single_word (w : PyStr) (hw : ' ' ∉ w) (hne : w ≠ [])
    (mw fs : ℚ) : wrap_text w mw fs = [w] := by
  simp only [wrap_text, splitChar_of_not_mem hw, List.foldl_cons, List.foldl_nil,
    wrapStep_nil_cur]
  simp [hne]

/-- C9 counterexample: a single 70-character item.  The claim's rendering —
the item wrapped to the panel width and capped at 2-3 lines — would show
the whole word unsplit on one line (per the wrapper's own single-word
rule); the code instead draws one line holding only the first 60 characters
with `"..."` appended, dropping characters 61-70. -/
theorem recommendations_truncated_not_wrapped_cex :
    strTexts (drawRecommendations [List.replicate 70 'a'])
        = [ps "RECOMENDACIONES", List.replicate 60 'a' ++ ps "..."] ∧
      (wrap_text (List.replicate 70 'a')
          ((LANDSCAPE_WIDTH - 30 * qmm) * (30 / 100)) 7).take 3
        = [List.replicate 70 'a'] ∧
      List.replicate 60 'a' ++ ps "..." ≠ List.replicate 70 'a' := by
  refine ⟨by decide, ?_, by decide⟩
  rw [wrap_text_single_word _ (by decide) (by decide)]
  rfl

theorem strTexts_recommendationItemOps (bx by' : ℚ) (p : ℕ × PyStr) :
    strTexts (recommendationItemOps bx by' p)
      = [p.2.take 60 ++ (if 60 < p.2.length then ps "..." else [])] := rfl

/-- C9 amended.  `_draw_recommendations` renders at most the first **5**
recommendations (later items are not drawn), and each rendered item is a
single line: its first 60 characters, with `"..."` appended when the item
is longer.  No wrapping takes place. -/
theorem recommendations_capped_truncated (recs : List PyStr) :
    strTexts (drawRecommendations recs)
      = ps "RECOMENDACIONES"
        :: (recs.take 5).map
            (fun r => r.take 60 ++ (if 60 < r.length then ps "..." else [])) := by
  unfold drawRecommendations
  simp only [strTexts, List.filterMap_append, List.filterMap_cons, List.filterMap_nil,
    List.filterMap_flatMap]
  rw [show ((recs.take 5).enum.flatMap fun a =>
      List.filterMap (fun op => match op with
        | Op.drawString _ _ s => some s
        | _ => none)
        (recommendationItemOps
          (LANDSCAPE_WIDTH - (LANDSCAPE_WIDTH - 30 * qmm) * (65 / 100) + 5 * qmm)
          (LANDSCAPE_HEIGHT - 20 * qmm - 55 * qmm - 10 * qmm) a))
    = (recs.take 5).enum.flatMap
        (fun a => [a.2.take 60 ++ (if 60 < a.2.length then ps "..." else [])]) from
      List.flatMap_congr (fun a _ => strTexts_recommendationItemOps _ _ a),
    flatMap_singleton_map]
  rw [show ((recs.take 5).enum.map fun a =>
        a.2.take 60 ++ (if 60 < a.2.length then ps "..." else []))
      = ((recs.take 5).enum.map Prod.snd).map
          (fun r => r.take 60 ++ (if 60 < r.length then ps "..." else [])) from by
      rw [List.map_map]
      rfl]
  rw [show (recs.take 5).enum.map Prod.snd = recs.take 5 from by
    simp [List.enum, List.enumFrom_map_snd]]
  rfl

/-! ## Claim C7: wrapped lines fit, oversized words stand alone -/

/-- C7.  Every line produced by `_wrap_text` satisfies the character-count
width model `len(line) * (font_size * 0.5) <= max_width`, except that a
single word wider than the width budget is placed alone on its own line
without being split (such a line is verbatim one of the input's
space-separated words); and the empty input string yields the empty
sequence of lines. -/
theorem wrap_lines_fit_or_single_word (text : PyStr) (mw fs : ℚ) :
    (∀ l ∈ wrap_text text mw fs,
        wrapFits mw fs l ∨ (¬ wrapFits mw fs l ∧ l ∈ splitChar ' ' text)) ∧
      wrap_text [] mw fs = [] :=
  ⟨wrap_text_fits text mw fs, wrap_text_nil mw fs⟩

/-- Concrete run of the wrapper used by the C7 witness:
11 characters at font size 4 need `11 * 2 = 22 > 20` points, so the two
words go on separate lines. -/
theorem wrap_eval_hello : wrap_text (ps "hello world") 20 4 = [ps "hello", ps "world"] := by
  have hsp : splitChar ' ' (ps "hello world") = [ps "hello", ps "world"] := by decide
  have h2 : ¬ wrapFits 20 4 (ps "hello" ++ ' ' :: ps "world") :=
    not_wrapFits_of_len 20 4 _ 11 (by decide) (by norm_num)
  simp only [wrap_text, hsp, List.foldl_cons, List.foldl_nil, wrapStep_nil_cur,
    wrapStep_neg 20 4 [] (ps "hello") (ps "world") (by decide) h2]
  decide

/-- C7 witness at a concrete line of a concrete run. -/
theorem wrap_lines_fit_or_single_word_witness :
    (ps "hello" ∈ wrap_text (ps "hello world") 20 4) ∧
      (wrapFits 20 4 (ps "hello") ∨
        (¬ wrapFits 20 4 (ps "hello") ∧ ps "hello" ∈ splitChar ' ' (ps "hello world"))) := by
  have hmem : ps "hello" ∈ wrap_text (ps "hello world") 20 4 := by
    rw [wrap_eval_hello]
    decide
  exact ⟨hmem, (wrap_lines_fit_or_single_word (ps "hello world") 20 4).1 (ps "hello") hmem⟩

/-! ## Claim C8: re-wrapping the joined lines -/

/-- Concrete run for the C8 counterexample, first wrap.  With
`max_width = -5` and the degenerate negative font size `-2`, a string fits
iff `len * (-1) <= -5`, i.e. iff it has at least 5 characters.  The input
`"abc  xy"` splits into the words `abc`, `''`, `xy`; the empty middle word
forces a flush of `abc` and then vanishes (the empty current line
contributes no separator), leaving `[abc, xy]`. -/
theorem wrap_eval_cex_1 : wrap_text (ps "abc  xy") (-5) (-2) = [ps "abc", ps "xy"] := by
  have hsp : splitChar ' ' (ps "abc  xy") = [ps "abc", [], ps "xy"] := by decide
  have h2 : ¬ wrapFits (-5) (-2) (ps "abc" ++ ' ' :: []) :=
    not_wrapFits_of_len (-5) (-2) _ 4 (by decide) (by norm_num)
  simp only [wrap_text, hsp]
  rw [List.foldl_cons, wrapStep_nil_cur, List.foldl_cons,
    wrapStep_neg (-5) (-2) [] (ps "abc") [] (by decide) h2,
    List.foldl_cons, wrapStep_nil_cur, List.foldl_nil]
  decide

/-- Concrete run for the C8 counterexample, second wrap: rejoined as
`"abc xy"` (6 characters, which now "fits"), the two lines merge. -/
theorem wrap_eval_cex_2 :
    wrap_text (joinSpace [ps "abc", ps "xy"]) (-5) (-2) = [ps "abc xy"] := by
  have hj : joinSpace [ps "abc", ps "xy"] = ps "abc xy" := by decide
  have hsp : splitChar ' ' (ps "abc xy") = [ps "abc", ps "xy"] := by decide
  have h2 : wrapFits (-5) (-2) (ps "abc" ++ ' ' :: ps "xy") :=
    wrapFits_of_len (-5) (-2) _ 6 (by decide) (by norm_num)
  simp only [hj, wrap_text, hsp, List.foldl_cons, List.foldl_nil, wrapStep_nil_cur,
    wrapStep_pos (-5) (-2) [] (ps "abc") (ps "xy") (by decide) h2]
  decide

/-- C8 counterexample: for the (degenerate) negative font size `-2`,
wrapping is **not** idempotent — re-wrapping the space-joined lines of
`"abc  xy"` at the same width and font size changes the line list. -/
theorem wrap_idem_fails_negative_font_cex :
    wrap_text (joinSpace (wrap_text (ps "abc  xy") (-5) (-2))) (-5) (-2) ≠
      wrap_text (ps "abc  xy") (-5) (-2) := by
  rw [wrap_eval_cex_1, wrap_eval_cex_2]
  decide

/-- C8 amended.  For every string, width, and **nonnegative** font size
(the only regime the generator uses — it calls the wrapper at size 9),
wrapping is idempotent: re-wrapping the space-joined output lines at the
same width and font size reproduces them exactly. -/
theorem wrap_text_idem_nonneg (t : PyStr) (mw fs : ℚ) (hfs : 0 ≤ fs) :
    wrap_text (joinSpace (wrap_text t mw fs)) mw fs = wrap_text t mw fs :=
  wrap_text_idem t mw fs hfs

/-- C8 amended witness at the generator's font size 9. -/
theorem wrap_text_idem_nonneg_witness :
    (0 : ℚ) ≤ 9 ∧
      wrap_text (joinSpace (wrap_text (ps "hello world this is a test") 40 9)) 40 9 =
        wrap_text (ps "hello world this is a test") 40 9 :=
  ⟨by norm_num, wrap_text_idem_nonneg (ps "hello world this is a test") 40 9 (by norm_num)⟩
